import Mathlib

/-!
Shallow embedding of the mutable-target reverse proxy and chat client:
a Vite dev server whose `/api` proxy forwards to a runtime-mutable
upstream target, a control endpoint (`/@vite/proxy-update`) that
rewrites the target, a small target-store module, and the React client
(`App.jsx`, `ChatInterface.jsx`).

JavaScript values that the handlers inspect are embedded as an
inductive `Json`; fetch outcomes are embedded at the granularity the
handlers branch on (network rejection, non-ok status, JSON-parse
failure, parsed body). All handlers are embedded as pure state-passing
functions.
-/

namespace SentientLora

/-- JSON values as produced by `JSON.parse`. -/
inductive Json where
  | jNull
  | jBool (b : Bool)
  | jNum (n : Int)
  | jStr (s : String)
  | jArr (xs : List Json)
  | jObj (fields : List (String × Json))

/-- JavaScript truthiness of an embedded JSON value (`NaN` does not
arise here since numbers are embedded as integers). -/
def jsTruthy : Json → Bool
  | .jNull => false
  | .jBool b => b
  | .jNum n => n != 0
  | .jStr s => s != ""
  | .jArr _ => true
  | .jObj _ => true

/-- Whether the value is an array (`Array.isArray`). -/
def Json.isArr : Json → Bool
  | .jArr _ => true
  | _ => false

/-- Property access `v[k]` on a parsed JSON value: `none` models
`undefined`. On duplicate keys `JSON.parse` keeps the last one, hence
the left fold. -/
def getField : Json → String → Option Json
  | .jObj fields, k =>
      fields.foldl (fun acc p => if p.1 = k then some p.2 else acc) none
  | _, _ => none

/-- JavaScript `s.startsWith(pre)`, on the character sequence. -/
def jsStartsWith (s pre : String) : Bool :=
  pre.data.isPrefixOf s.data

/-- The repeated "Ensure URL has protocol" block (`updateProxyTarget`,
the `proxyReq` hook, and `handleApiSubmit` all inline it):
`if (!t.startsWith('http://') && !t.startsWith('https://')) t = 'http://' + t`. -/
def ensureProtocol (s : String) : String :=
  if !(jsStartsWith s "http://") && !(jsStartsWith s "https://") then
    "http://" ++ s
  else
    s

/-- The module-level default target in the Vite config
(`process.env` fallback constant). -/
def defaultTarget : String := "http://provider.gpufarm.xyz:31617"

/-- `updateProxyTarget` from the Vite config: normalizes the scheme and
overwrites the module-level `proxyTarget` cell (old value ignored). -/
def updateProxyTarget (newTarget : String) (_proxyTarget : String) : String :=
  ensureProtocol newTarget

/-- Outcome of `JSON.parse` on the accumulated request body of the
control endpoint: either the parse threw, or it produced a value. -/
inductive ControlInput where
  | parseFail
  | parsed (j : Json)

/-- Response written by the control-endpoint middleware.
`success` is `200` with body `{"success":true}` (brace-delimited JSON
object literal); `badRequest` is `400` with body `{"error":m}` where
`m` is the message of the thrown error (engine-defined text, not
modelled further); `methodNotAllowed` is `405` with no body written. -/
inductive ControlResponse where
  | success
  | badRequest
  | methodNotAllowed

/-- Status code passed to `res.writeHead` on each branch. -/
def statusOf : ControlResponse → Nat
  | .success => 200
  | .badRequest => 400
  | .methodNotAllowed => 405

/-- Whether the branch ends the response without writing a body
(`res.end()` with no argument). -/
def emptyBodyOf : ControlResponse → Bool
  | .success => false
  | .badRequest => false
  | .methodNotAllowed => true

/-- The destructuring `const { target } = JSON.parse(body)` followed by
`updateProxyTarget(target)` succeeds only when a string is extracted:
destructuring `null` throws a `TypeError`, and `target.startsWith` on
`undefined` or any non-string value throws before the store is
assigned. All throwing paths land in the same `catch`. -/
def destructureTarget (j : Json) : Option String :=
  match getField j "target" with
  | some (.jStr s) => some s
  | _ => none

/-- The `proxy-update` middleware body: non-`POST` methods are answered
`405` without reading the body; a `POST` body is parsed, the target
extracted and stored via `updateProxyTarget`, and any thrown error is
answered `400` leaving the store untouched. Returns the response and
the new `proxyTarget` cell. -/
def handleControl (method : String) (body : ControlInput)
    (proxyTarget : String) : ControlResponse × String :=
  if method = "POST" then
    match body with
    | .parseFail => (.badRequest, proxyTarget)
    | .parsed j =>
      match destructureTarget j with
      | some t => (.success, updateProxyTarget t proxyTarget)
      | none => (.badRequest, proxyTarget)
  else
    (.methodNotAllowed, proxyTarget)

/-- Vite proxy path rewrite `path.replace(/^\/api/, '')`: the regex is
anchored at the start, so at most the leading `/api` is removed. -/
def rewritePath (p : String) : String :=
  if jsStartsWith p "/api" then p.drop 4 else p

/-- State visible to the `/api` proxy: the module-level `proxyTarget`
cell and the proxy's `options.target` (initially the construction-time
default). -/
structure ProxyState where
  proxyTarget : String
  optionsTarget : String

/-- One proxied request under `/api`. http-proxy creates the outbound
request from `options.target` before it emits the `proxyReq` event, so
the request is dispatched to the `options.target` held at its start;
the registered `proxyReq` hook then re-reads the current `proxyTarget`
cell (when truthy), re-applies the protocol check, and assigns
`proxy.options.target` — an assignment that can no longer re-route the
in-flight request and takes effect only from the following request.
Returns the post-request proxy state and the URL this request was
dispatched to. -/
def forward (st : ProxyState) (path : String) : ProxyState × String :=
  let url := st.optionsTarget ++ rewritePath path
  let st' :=
    if st.proxyTarget != "" then
      { st with optionsTarget := ensureProtocol st.proxyTarget }
    else
      st
  (st', url)

/-- Outcome of a client `fetch` at the granularity the handlers branch
on: the promise rejected; the response arrived with `ok` false (status
and error-body text recorded); `response.json()` rejected (message is
engine-defined); or a parsed JSON body was obtained. -/
inductive FetchOutcome where
  | netError (msg : String)
  | httpError (status : Nat) (bodyText : String)
  | jsonError (msg : String)
  | okJson (j : Json)

/-- Result of the model-listing fetch in `ChatInterface`: either the
full-panel error state (`setError`), or the stored model list
(`setModels`). -/
inductive FetchModelsView where
  | errorState (msg : String)
  | loaded (models : List Json)

/-- `fetchModels` from `ChatInterface.jsx`: any throw is caught and
rendered as `Failed to load models: <message>`; a parsed body is
accepted only when it is truthy and its `available_models` field is
truthy and an array (arrays are always truthy, and a falsy or missing
field is never an array, so the three JS checks collapse to the single
match below). -/
def fetchModels (o : FetchOutcome) : FetchModelsView :=
  match o with
  | .netError m => .errorState ("Failed to load models: " ++ m)
  | .httpError status bodyText =>
      .errorState ("Failed to load models: HTTP error! status: " ++
        toString status ++ " - " ++ bodyText)
  | .jsonError _ =>
      .errorState ("Failed to load models: Failed to parse response as JSON")
  | .okJson d =>
      match (if jsTruthy d then getField d "available_models" else none) with
      | some (.jArr xs) => .loaded xs
      | _ => .errorState ("Failed to load models: Invalid response format from server")

/-- Effect of the fetch on the `selectedModel` state:
`setSelectedModel(available_models[0])` runs only when the fetched
list is nonempty; otherwise the previous selection (initially the
empty string) is kept. -/
def selectionUpdate (v : FetchModelsView) (selectedModel : Json) : Json :=
  match v with
  | .loaded (x :: _) => x
  | _ => selectedModel

/-- A transcript entry `{role, content}`; `none` as content models
`undefined`. -/
structure Message where
  role : String
  content : Option Json

/-- The body built for `POST /api/chat`. -/
structure ChatRequestBody where
  messages : List Message
  model : Json
  temperature : ℚ
  max_tokens : Nat

/-- JavaScript `input.trim()`: strips leading and trailing whitespace
(the whitespace classes relevant here are the ASCII ones). -/
def jsTrim (s : String) : String :=
  ⟨((s.data.dropWhile Char.isWhitespace).reverse.dropWhile
      Char.isWhitespace).reverse⟩

/-- The fixed fallback transcript text appended on any send failure. -/
def fallbackText : String :=
  "Sorry, there was an error processing your request."

/-- `handleSubmit` from `ChatInterface.jsx` as a function of the
current transcript, the compose-box text, the selected model and the
upstream outcome. Returns the new transcript and the request body
issued (`none` when the guard returns early and no request is made). -/
def handleSubmit (messages : List Message) (input : String)
    (selectedModel : Json) (outcome : FetchOutcome) :
    List Message × Option ChatRequestBody :=
  if jsTrim input == "" || !(jsTruthy selectedModel) then
    (messages, none)
  else
    let userMessage : Message := ⟨"user", some (.jStr input)⟩
    let sent := messages ++ [userMessage]
    let req : ChatRequestBody := ⟨sent, selectedModel, 0.7, 1000⟩
    match outcome with
    | .okJson d => (sent ++ [⟨"assistant", getField d "response"⟩], some req)
    | _ => (sent ++ [⟨"assistant", some (.jStr fallbackText)⟩], some req)

/-- Client state in `App.jsx`: the persisted `localStorage` key, the
`apiUrl` React state bound to the form input, the configuration flag
and the error line under the form. -/
structure AppState where
  storedApiUrl : Option String
  apiUrl : String
  isConfiguring : Bool
  error : String

/-- `apiUrl.replace(/\/$/, '')`: the anchored regex removes at most one
trailing slash. -/
def stripTrailingSlash (s : String) : String :=
  if s.endsWith "/" then s.dropRight 1 else s

/-- Stands for the engine-defined `TypeError` message thrown by reading
a property of `null`. -/
def nullFieldAccessMsg : String :=
  "TypeError: Cannot read properties of null"

/-- `handleApiSubmit` from `App.jsx`. `urlValid` is an oracle for
whether `new URL(formattedUrl)` succeeds (host-primitive URL parsing);
`probe` is the outcome of the `GET /api/models` probe. The control post
is not awaited for success and its response is never checked; the probe
runs through the proxy, whose state is threaded. On any throw the
`catch` sets the error line and nothing else; the previously saved
target is never written back to the proxy. -/
def handleApiSubmit (st : AppState) (proxy : ProxyState) (urlValid : Bool)
    (probe : FetchOutcome) : AppState × ProxyState :=
  let formattedUrl := ensureProtocol (stripTrailingSlash st.apiUrl)
  if !urlValid then
    ({ st with error := "Unable to connect to API: Please enter a valid URL" },
      proxy)
  else
    let pt' := (handleControl "POST"
      (.parsed (.jObj [("target", .jStr formattedUrl)])) proxy.proxyTarget).2
    let proxy1 : ProxyState := { proxy with proxyTarget := pt' }
    let proxy2 := (forward proxy1 "/api/models").1
    match probe with
    | .netError m =>
        ({ st with error := "Unable to connect to API: " ++ m }, proxy2)
    | .httpError _ _ =>
        ({ st with error := "Unable to connect to API: Could not connect to API" },
          proxy2)
    | .jsonError m =>
        ({ st with error := "Unable to connect to API: " ++ m }, proxy2)
    | .okJson d =>
      match d, getField d "available_models" with
      | .jNull, _ =>
          ({ st with error := "Unable to connect to API: " ++ nullFieldAccessMsg },
            proxy2)
      | _, some (.jArr _) =>
          ({ st with storedApiUrl := some formattedUrl,
                     apiUrl := formattedUrl,
                     isConfiguring := false,
                     error := "" }, proxy2)
      | _, _ =>
          ({ st with error := "Unable to connect to API: Invalid API response format" },
            proxy2)

/-- The standalone target-store module: `updateTarget` overwrites the
`currentTarget` cell with exactly the value given. -/
def updateTarget (newTarget : String) (_currentTarget : String) : String :=
  newTarget

/-- The standalone target-store module: `getTarget` reads the cell. -/
def getTarget (currentTarget : String) : String :=
  currentTarget

/-! ## Helper lemmas -/

theorem isPrefixOf_append_self {α : Type} [BEq α] [LawfulBEq α]
    (l₁ l₂ : List α) : l₁.isPrefixOf (l₁ ++ l₂) = true := by
  induction l₁ with
  | nil => simp [List.isPrefixOf]
  | cons a t ih => simp [List.isPrefixOf, ih]

theorem jsStartsWith_http_append (s : String) :
    jsStartsWith ("http://" ++ s) "http://" = true := by
  unfold jsStartsWith
  rw [String.data_append]
  exact isPrefixOf_append_self _ _

theorem ensureProtocol_prepend (s : String)
    (h1 : jsStartsWith s "http://" = false)
    (h2 : jsStartsWith s "https://" = false) :
    ensureProtocol s = "http://" ++ s := by
  unfold ensureProtocol
  rw [h1, h2]
  rfl

theorem ensureProtocol_noop (s : String)
    (h : jsStartsWith s "http://" = true ∨ jsStartsWith s "https://" = true) :
    ensureProtocol s = s := by
  unfold ensureProtocol
  rcases h with h | h <;> rw [h] <;> simp

theorem ensureProtocol_starts (s : String) :
    jsStartsWith (ensureProtocol s) "http://" = true ∨
    jsStartsWith (ensureProtocol s) "https://" = true := by
  cases h1 : jsStartsWith s "http://" with
  | true => rw [ensureProtocol_noop s (Or.inl h1)]; exact Or.inl h1
  | false =>
    cases h2 : jsStartsWith s "https://" with
    | true => rw [ensureProtocol_noop s (Or.inr h2)]; exact Or.inr h2
    | false =>
      rw [ensureProtocol_prepend s h1 h2]
      exact Or.inl (jsStartsWith_http_append s)

theorem ensureProtocol_idem (s : String) :
    ensureProtocol (ensureProtocol s) = ensureProtocol s :=
  ensureProtocol_noop _ (ensureProtocol_starts s)

theorem append_left_ne_empty (s t : String) (h : s.length ≠ 0) :
    s ++ t ≠ "" := by
  intro he
  have hl := congrArg String.length he
  rw [String.length_append] at hl
  simp only [String.length_empty] at hl
  omega

theorem ensureProtocol_ne_empty (s : String) : ensureProtocol s ≠ "" := by
  rcases ensureProtocol_starts s with h | h <;> intro he <;> rw [he] at h <;>
    exact absurd h (by decide)

/-! ## Claims -/

/-- C3: the target-store setter replaces the cell unconditionally with
exactly the value given (no validation or normalization), and after any
sequence of sets the getter returns the value of the most recent set
(last-write-wins). -/
theorem targetStore_setter_unconditional (st u : String) (us : List String) :
    updateTarget u st = u ∧
    getTarget (updateTarget u st) = u ∧
    getTarget (List.foldl (fun c v => updateTarget v c) st (us ++ [u])) = u := by
  refine ⟨rfl, rfl, ?_⟩
  simp [List.foldl_append, updateTarget, getTarget]

/-- C4: target normalization prepends `http://` to every string that
starts with neither `http://` nor `https://`, and returns every string
already starting with `http://` or `https://` unchanged; this is the
normalization applied by `updateProxyTarget`. -/
theorem ensureProtocol_scheme_cases (s t : String) :
    (jsStartsWith s "http://" = false → jsStartsWith s "https://" = false →
      ensureProtocol s = "http://" ++ s) ∧
    (jsStartsWith s "http://" = true ∨ jsStartsWith s "https://" = true →
      ensureProtocol s = s) ∧
    updateProxyTarget s t = ensureProtocol s :=
  ⟨ensureProtocol_prepend s, ensureProtocol_noop s, rfl⟩

/-- Witness for C4 at a scheme-less and an `https://` input. -/
theorem ensureProtocol_scheme_cases_witness :
    ensureProtocol "provider.example:9000" = "http://" ++ "provider.example:9000" ∧
    ensureProtocol "https://secure.example" = "https://secure.example" :=
  ⟨(ensureProtocol_scheme_cases "provider.example:9000" "").1
      (by decide) (by decide),
   (ensureProtocol_scheme_cases "https://secure.example" "").2.1
      (Or.inr (by decide))⟩

/-- C1: the claimed ordering guarantee fails in the code. http-proxy
fixes the outbound target from `options.target` before emitting
`proxyReq`, so the hook's store read takes effect only from the
following request: after `{target: "provider.example:9000"}` is
acknowledged with `success`, the very next `GET /api/models` is still
dispatched to the stale default `http://provider.gpufarm.xyz:31617/models`
— not to `http://provider.example:9000/models` — and only the request
after that one reaches the new target (a one-request stale lag). -/
theorem proxy_stale_forward_after_update :
    handleControl "POST"
        (.parsed (.jObj [("target", .jStr "provider.example:9000")]))
        defaultTarget = (.success, "http://provider.example:9000") ∧
    (forward { proxyTarget := "http://provider.example:9000",
               optionsTarget := defaultTarget } "/api/models").2 =
      "http://provider.gpufarm.xyz:31617/models" ∧
    (forward { proxyTarget := "http://provider.example:9000",
               optionsTarget := defaultTarget } "/api/models").2 ≠
      "http://provider.example:9000/models" ∧
    (forward
      (forward { proxyTarget := "http://provider.example:9000",
                 optionsTarget := defaultTarget } "/api/models").1
      "/api/models").2 = "http://provider.example:9000/models" := by
  exact ⟨rfl, rfl, by decide, rfl⟩

/-- C2: a `POST` to the control path whose body parses and yields a
string `target` field stores the normalized value and is answered
`200` (`success`, whose body is `{"success":true}`); a body that fails
to parse, or parses without a usable `target` string, is answered
`400` with the thrown error's description and leaves the stored target
unchanged. -/
theorem control_post_contract (b : ControlInput) (st : String) :
    (∀ j t, b = .parsed j → destructureTarget j = some t →
      handleControl "POST" b st = (.success, ensureProtocol t) ∧
      statusOf (handleControl "POST" b st).1 = 200) ∧
    ((b = .parseFail ∨ ∃ j, b = .parsed j ∧ destructureTarget j = none) →
      handleControl "POST" b st = (.badRequest, st) ∧
      statusOf (handleControl "POST" b st).1 = 400) := by
  constructor
  · rintro j t rfl hd
    simp [handleControl, hd, updateProxyTarget, statusOf]
  · rintro (rfl | ⟨j, rfl, hd⟩)
    · simp [handleControl, statusOf]
    · simp [handleControl, hd, statusOf]

/-- Witness for C2: a well-formed update against stored target
`http://old.example` succeeds and normalizes; a parse failure is
answered `400` and leaves `http://old.example` in place. -/
theorem control_post_contract_witness :
    handleControl "POST"
        (.parsed (.jObj [("target", .jStr "provider.example:9000")]))
        "http://old.example" = (.success, "http://provider.example:9000") ∧
    handleControl "POST" .parseFail "http://old.example" =
      (.badRequest, "http://old.example") := by
  have h1 := (control_post_contract
    (.parsed (.jObj [("target", .jStr "provider.example:9000")]))
    "http://old.example").1 _ "provider.example:9000" rfl (by rfl)
  have h2 := (control_post_contract .parseFail "http://old.example").2
    (Or.inl rfl)
  exact ⟨h1.1.trans (by rfl), h2.1⟩

/-- C10: any request to the control path with a method other than
`POST` is answered `405` with no body written, the stored target is
unchanged, and the outcome is the same for every request body (the
body is never read or parsed). -/
theorem control_non_post_method (m : String) (h : m ≠ "POST") :
    ∀ (b : ControlInput) (st : String),
      handleControl m b st = (.methodNotAllowed, st) ∧
      statusOf (handleControl m b st).1 = 405 ∧
      emptyBodyOf (handleControl m b st).1 = true := by
  intro b st
  simp [handleControl, h, statusOf, emptyBodyOf]

/-- Witness for C10 at method `GET`. -/
theorem control_non_post_method_witness :
    handleControl "GET" .parseFail "http://t.example" =
      (.methodNotAllowed, "http://t.example") :=
  (control_non_post_method "GET" (by decide) .parseFail "http://t.example").1

/-- Probe outcomes that `handleApiSubmit` treats as configuration
failure: rejected fetch, non-ok status, JSON-parse failure, or a body
without a usable `available_models` array. -/
def probeLacksModels : FetchOutcome → Bool
  | .netError _ => true
  | .httpError _ _ => true
  | .jsonError _ => true
  | .okJson d =>
      match d, getField d "available_models" with
      | .jNull, _ => true
      | _, some (.jArr _) => false
      | _, _ => true

theorem unable_msg_ne_empty (m : String) :
    ("Unable to connect to API: " ++ m) ≠ "" :=
  append_left_ne_empty _ _ (by decide)

theorem forward_fst_proxyTarget (st : ProxyState) (p : String) :
    (forward st p).1.proxyTarget = st.proxyTarget := by
  unfold forward
  dsimp only
  split <;> rfl

/-- C5: when the post-update probe fails, the client shows an error,
stays on the configuration form, leaves the persisted key untouched,
and the proxy keeps the freshly posted target (the previously saved
target is not restored into the store). -/
theorem apiSubmit_probe_failure
    (st : AppState) (proxy : ProxyState) (probe : FetchOutcome)
    (hconf : st.isConfiguring = true)
    (hfail : probeLacksModels probe = true) :
    (handleApiSubmit st proxy true probe).1.error ≠ "" ∧
    (handleApiSubmit st proxy true probe).1.isConfiguring = true ∧
    (handleApiSubmit st proxy true probe).1.storedApiUrl = st.storedApiUrl ∧
    (handleApiSubmit st proxy true probe).2.proxyTarget =
      ensureProtocol (stripTrailingSlash st.apiUrl) := by
  have hpt : ∀ pr : ProxyState,
      (handleControl "POST"
        (.parsed (.jObj [("target",
          .jStr (ensureProtocol (stripTrailingSlash st.apiUrl)))]))
        pr.proxyTarget).2 = ensureProtocol (stripTrailingSlash st.apiUrl) := by
    intro pr
    simp [handleControl, destructureTarget, getField, updateProxyTarget,
      ensureProtocol_idem]
  cases probe with
  | netError m =>
    refine ⟨?_, ?_, ?_, ?_⟩ <;>
      simp [handleApiSubmit, hconf, hpt, forward_fst_proxyTarget,
        unable_msg_ne_empty]
  | httpError status bodyText =>
    refine ⟨?_, ?_, ?_, ?_⟩ <;>
      simp [handleApiSubmit, hconf, hpt, forward_fst_proxyTarget,
        unable_msg_ne_empty]
  | jsonError m =>
    refine ⟨?_, ?_, ?_, ?_⟩ <;>
      simp [handleApiSubmit, hconf, hpt, forward_fst_proxyTarget,
        unable_msg_ne_empty]
  | okJson d =>
    cases d with
    | jNull =>
      refine ⟨?_, ?_, ?_, ?_⟩ <;>
        simp [handleApiSubmit, hconf, hpt, forward_fst_proxyTarget,
        unable_msg_ne_empty]
    | jBool b =>
      refine ⟨?_, ?_, ?_, ?_⟩ <;>
        simp [handleApiSubmit, hconf, hpt, forward_fst_proxyTarget,
          unable_msg_ne_empty, getField]
    | jNum n =>
      refine ⟨?_, ?_, ?_, ?_⟩ <;>
        simp [handleApiSubmit, hconf, hpt, forward_fst_proxyTarget,
          unable_msg_ne_empty, getField]
    | jStr s =>
      refine ⟨?_, ?_, ?_, ?_⟩ <;>
        simp [handleApiSubmit, hconf, hpt, forward_fst_proxyTarget,
          unable_msg_ne_empty, getField]
    | jArr xs =>
      refine ⟨?_, ?_, ?_, ?_⟩ <;>
        simp [handleApiSubmit, hconf, hpt, forward_fst_proxyTarget,
          unable_msg_ne_empty, getField]
    | jObj fields =>
      cases hg : getField (Json.jObj fields) "available_models" with
      | none =>
        refine ⟨?_, ?_, ?_, ?_⟩ <;>
          simp [handleApiSubmit, hconf, hpt, hg, forward_fst_proxyTarget,
            unable_msg_ne_empty]
      | some v =>
        cases v with
        | jArr xs =>
          exfalso
          simp [probeLacksModels, hg] at hfail
        | jNull =>
          refine ⟨?_, ?_, ?_, ?_⟩ <;>
            simp [handleApiSubmit, hconf, hpt, hg, forward_fst_proxyTarget,
              unable_msg_ne_empty]
        | jBool b =>
          refine ⟨?_, ?_, ?_, ?_⟩ <;>
            simp [handleApiSubmit, hconf, hpt, hg, forward_fst_proxyTarget,
              unable_msg_ne_empty]
        | jNum n =>
          refine ⟨?_, ?_, ?_, ?_⟩ <;>
            simp [handleApiSubmit, hconf, hpt, hg, forward_fst_proxyTarget,
              unable_msg_ne_empty]
        | jStr s =>
          refine ⟨?_, ?_, ?_, ?_⟩ <;>
            simp [handleApiSubmit, hconf, hpt, hg, forward_fst_proxyTarget,
              unable_msg_ne_empty]
        | jObj gs =>
          refine ⟨?_, ?_, ?_, ?_⟩ <;>
            simp [handleApiSubmit, hconf, hpt, hg, forward_fst_proxyTarget,
              unable_msg_ne_empty]

/-- Witness for C5: a `500` probe against a client that had previously
validated `http://saved.example`. -/
theorem apiSubmit_probe_failure_witness :
    (handleApiSubmit
        { storedApiUrl := some "http://saved.example",
          apiUrl := "provider.example:9000",
          isConfiguring := true, error := "" }
        { proxyTarget := defaultTarget, optionsTarget := defaultTarget }
        true (.httpError 500 "upstream down")).1.error ≠ "" ∧
    (handleApiSubmit
        { storedApiUrl := some "http://saved.example",
          apiUrl := "provider.example:9000",
          isConfiguring := true, error := "" }
        { proxyTarget := defaultTarget, optionsTarget := defaultTarget }
        true (.httpError 500 "upstream down")).1.isConfiguring = true ∧
    (handleApiSubmit
        { storedApiUrl := some "http://saved.example",
          apiUrl := "provider.example:9000",
          isConfiguring := true, error := "" }
        { proxyTarget := defaultTarget, optionsTarget := defaultTarget }
        true (.httpError 500 "upstream down")).1.storedApiUrl =
      some "http://saved.example" ∧
    (handleApiSubmit
        { storedApiUrl := some "http://saved.example",
          apiUrl := "provider.example:9000",
          isConfiguring := true, error := "" }
        { proxyTarget := defaultTarget, optionsTarget := defaultTarget }
        true (.httpError 500 "upstream down")).2.proxyTarget =
      ensureProtocol (stripTrailingSlash "provider.example:9000") :=
  apiSubmit_probe_failure
    { storedApiUrl := some "http://saved.example",
      apiUrl := "provider.example:9000",
      isConfiguring := true, error := "" }
    { proxyTarget := defaultTarget, optionsTarget := defaultTarget }
    (.httpError 500 "upstream down") rfl rfl

/-- Upstream outcomes the claim ranges over for a chat send: rejected
fetch or non-ok response. -/
def upstreamFailed : FetchOutcome → Bool
  | .netError _ => true
  | .httpError _ _ => true
  | _ => false

/-- C6: when a chat send fails upstream (network error or non-ok
response), exactly one assistant entry holding the fixed fallback text
is appended after the optimistically appended user entry; the user
entry and the rest of the transcript are unchanged, and the raw error
never enters the transcript. -/
theorem chat_failure_appends_fallback
    (messages : List Message) (input : String) (selectedModel : Json)
    (outcome : FetchOutcome)
    (hin : jsTrim input ≠ "") (hsel : jsTruthy selectedModel = true)
    (hfail : upstreamFailed outcome = true) :
    (handleSubmit messages input selectedModel outcome).1 =
      messages ++ [⟨"user", some (.jStr input)⟩,
                   ⟨"assistant", some (.jStr fallbackText)⟩] := by
  cases outcome with
  | netError m => simp [handleSubmit, hin, hsel]
  | httpError status bodyText => simp [handleSubmit, hin, hsel]
  | jsonError m => simp [upstreamFailed] at hfail
  | okJson d => simp [upstreamFailed] at hfail

/-- Witness for C6 on an empty transcript and a rejected fetch. -/
theorem chat_failure_appends_fallback_witness :
    (handleSubmit [] "Hello" (.jStr "dobby-8b") (.netError "refused")).1 =
      [] ++ [⟨"user", some (.jStr "Hello")⟩,
             ⟨"assistant", some (.jStr fallbackText)⟩] :=
  chat_failure_appends_fallback [] "Hello" (.jStr "dobby-8b")
    (.netError "refused") (by decide) (by decide) (by decide)

/-- C7: a listing body `{available_models: ["a","b"]}` stores the model
list and selects `"a"` as the default; a body `{}` without the field,
and any body whose `available_models` is not an array, put the UI in
the listing-failure error state instead of adopting partial state. -/
theorem fetchModels_listing_shape :
    fetchModels (.okJson (.jObj [("available_models",
        .jArr [.jStr "a", .jStr "b"])])) = .loaded [.jStr "a", .jStr "b"] ∧
    selectionUpdate (fetchModels (.okJson (.jObj [("available_models",
        .jArr [.jStr "a", .jStr "b"])]))) (.jStr "") = .jStr "a" ∧
    fetchModels (.okJson (.jObj [])) =
      .errorState "Failed to load models: Invalid response format from server" ∧
    (∀ v : Json, v.isArr = false →
      fetchModels (.okJson (.jObj [("available_models", v)])) =
        .errorState "Failed to load models: Invalid response format from server") := by
  refine ⟨rfl, rfl, rfl, ?_⟩
  intro v hv
  cases v <;> simp_all [fetchModels, getField, jsTruthy, Json.isArr]

/-- Witness for C7 at a non-array `available_models`. -/
theorem fetchModels_listing_shape_witness :
    fetchModels (.okJson (.jObj [("available_models", .jStr "x")])) =
      .errorState "Failed to load models: Invalid response format from server" :=
  fetchModels_listing_shape.2.2.2 (.jStr "x") (by rfl)

/-- C8: the chat request body built on submit carries the prior
transcript plus the one new user entry, in order and unchanged, the
selected model, temperature `0.7` and `max_tokens` `1000`; in
particular it has exactly `N + 1` entries for `N` prior messages. -/
theorem chat_request_body_shape
    (messages : List Message) (input : String) (selectedModel : Json)
    (outcome : FetchOutcome)
    (hin : jsTrim input ≠ "") (hsel : jsTruthy selectedModel = true) :
    (handleSubmit messages input selectedModel outcome).2 =
      some { messages := messages ++ [⟨"user", some (.jStr input)⟩],
             model := selectedModel,
             temperature := 0.7,
             max_tokens := 1000 } ∧
    ((handleSubmit messages input selectedModel outcome).2.map
      (fun r => r.messages.length)) = some (messages.length + 1) := by
  cases outcome <;> simp [handleSubmit, hin, hsel]

/-- Witness for C8 on a two-message prior transcript. -/
theorem chat_request_body_shape_witness :
    (handleSubmit
        [⟨"user", some (.jStr "hi")⟩, ⟨"assistant", some (.jStr "hello")⟩]
        "again" (.jStr "dobby-8b")
        (.okJson (.jObj [("response", .jStr "sure")]))).2 =
      some { messages :=
              [⟨"user", some (.jStr "hi")⟩,
               ⟨"assistant", some (.jStr "hello")⟩] ++
              [⟨"user", some (.jStr "again")⟩],
             model := .jStr "dobby-8b",
             temperature := 0.7,
             max_tokens := 1000 } :=
  (chat_request_body_shape
    [⟨"user", some (.jStr "hi")⟩, ⟨"assistant", some (.jStr "hello")⟩]
    "again" (.jStr "dobby-8b")
    (.okJson (.jObj [("response", .jStr "sure")]))
    (by decide) (by decide)).1

/-- C9: an empty `available_models` array is accepted (no error state),
but no model gets selected — the selection keeps its initial empty
string — and in that state submitting any input is a no-op: the
transcript is untouched and no request is issued. -/
theorem empty_models_list_noop :
    fetchModels (.okJson (.jObj [("available_models", .jArr [])])) =
      .loaded [] ∧
    selectionUpdate (fetchModels (.okJson (.jObj [("available_models",
        .jArr [])]))) (.jStr "") = .jStr "" ∧
    (∀ (messages : List Message) (input : String) (outcome : FetchOutcome),
      handleSubmit messages input (.jStr "") outcome = (messages, none)) := by
  refine ⟨rfl, rfl, ?_⟩
  intro ms input o
  simp [handleSubmit, jsTruthy]

end SentientLora
